import Mathlib

/-!
Shallow embedding of the order/payment workflow of the e-commerce backend:
the order routes (`router.post('/')`, `router.put('/:id/status')` in the
orders router), the payment route (`router.post('/process')` in
`server/routes/payments.js`), the cart routes (`server/routes/cart.js`),
and the admin product update (`router.put('/:id')` in the products router).

Rows of the SQLite tables become Lean structures; the database becomes a
record of lists of rows; each request handler becomes a function from the
database (plus the request fields and the handler's non-deterministic
inputs: the generated order number, `Math.random()` draw, generated payment
id, and `CURRENT_TIMESTAMP`) to `Except String` of the updated database and
response payload.  Monetary values (SQL `DECIMAL`, JS numbers) are embedded
as `ℚ`; row ids as `Nat`; timestamps as `Nat`.
-/

namespace Shop

/-- A row of the `products` table (the columns this workflow reads/writes). -/
structure Product where
  id : Nat
  name : String
  price : ℚ
  stock_quantity : Int
  is_active : Bool
deriving DecidableEq

/-- A row of the `cart_items` table. -/
structure CartItem where
  id : Nat
  user_id : Nat
  product_id : Nat
  quantity : Nat
deriving DecidableEq

/-- A row of the `orders` table (the columns this workflow reads/writes).
`shipped_at`, `delivered_at`, `updated_at` model the `DATETIME` columns. -/
structure Order where
  id : Nat
  user_id : Nat
  order_number : String
  status : String
  subtotal : ℚ
  tax_amount : ℚ
  shipping_amount : ℚ
  total_amount : ℚ
  payment_status : String
  payment_method : String
  payment_id : Option String
  shipping_address_id : Option Nat
  billing_address_id : Option Nat
  notes : Option String
  shipped_at : Option Nat
  delivered_at : Option Nat
  updated_at : Nat
deriving DecidableEq

/-- A row of the `order_items` table. -/
structure OrderItem where
  order_id : Nat
  product_id : Nat
  quantity : Nat
  unit_price : ℚ
  total_price : ℚ
deriving DecidableEq

/-- The mutable state: the four tables this workflow touches, plus the
`AUTOINCREMENT` counters for `orders.id` and `cart_items.id`. -/
structure DB where
  products : List Product
  cart_items : List CartItem
  orders : List Order
  order_items : List OrderItem
  nextOrderId : Nat
  nextCartItemId : Nat
deriving DecidableEq

/-- JS `x || 'default'` on an optional string field: `undefined` and `''`
are falsy. -/
def jsOrStr (v : Option String) (d : String) : String :=
  match v with
  | some s => if s = "" then d else s
  | none => d

/-- JS `x || null` on an optional numeric id: `undefined` and `0` are
falsy, so both persist as SQL `NULL`. -/
def jsOrNullNat (v : Option Nat) : Option Nat :=
  match v with
  | some n => if n = 0 then none else some n
  | none => none

/-- JS truthiness test `!x` on an optional numeric id. -/
def jsFalsyNat (v : Option Nat) : Bool :=
  match v with
  | some n => n == 0
  | none => true

/-- JS truthiness test `!x` on an optional string. -/
def jsFalsyStr (v : Option String) : Bool :=
  match v with
  | some s => s == ""
  | none => true

/-- The cart query of order creation:
`SELECT ci.*, p.name, p.price, p.stock_quantity FROM cart_items ci
JOIN products p ON ci.product_id = p.id
WHERE ci.user_id = ? AND p.is_active = 1`.
Each returned row pairs the cart row with its joined (active) product. -/
def cartLines (db : DB) (u : Nat) : List (CartItem × Product) :=
  (db.cart_items.filter (fun ci => ci.user_id == u)).filterMap (fun ci =>
    (db.products.find? (fun p => p.id == ci.product_id && p.is_active)).map
      (fun p => (ci, p)))

/-- The request body fields of `router.post('/')` (order creation). -/
structure OrderRequest where
  shippingAddressId : Option Nat
  billingAddressId : Option Nat
  paymentMethod : Option String
  notes : Option String
deriving DecidableEq

/-- The 201 response payload of order creation. -/
structure CreateOrderResult where
  db : DB
  orderId : Nat
  orderNumber : String
  totalAmount : ℚ
deriving DecidableEq

/-- The `INSERT INTO orders ...` statement.  `status` is passed as
`'pending'` by the handler; `payment_status` takes its schema default
`'pending'`; `payment_id`, `shipped_at`, `delivered_at` are not inserted
and take their `NULL` defaults. -/
def insertOrderStep (db : DB) (u : Nat) (orderNumber : String)
    (subtotal taxAmount shippingAmount totalAmount : ℚ)
    (paymentMethod : String) (shippingAddressId billingAddressId : Option Nat)
    (notes : Option String) (now : Nat) : DB :=
  { db with
    orders := db.orders ++ [{
      id := db.nextOrderId
      user_id := u
      order_number := orderNumber
      status := "pending"
      subtotal := subtotal
      tax_amount := taxAmount
      shipping_amount := shippingAmount
      total_amount := totalAmount
      payment_status := "pending"
      payment_method := paymentMethod
      payment_id := none
      shipping_address_id := shippingAddressId
      billing_address_id := billingAddressId
      notes := notes
      shipped_at := none
      delivered_at := none
      updated_at := now }]
    nextOrderId := db.nextOrderId + 1 }

/-- The order-item row inserted for one cart line:
`INSERT INTO order_items (order_id, product_id, quantity, unit_price,
total_price) VALUES (?, ?, ?, ?, ?)` with
`totalPrice = item.price * item.quantity`. -/
def mkOrderItem (orderId : Nat) (line : CartItem × Product) : OrderItem :=
  { order_id := orderId
    product_id := line.1.product_id
    quantity := line.1.quantity
    unit_price := line.2.price
    total_price := line.2.price * (line.1.quantity : ℚ) }

/-- One execution of the `insertOrderItem` prepared statement. -/
def insertItemStep (db : DB) (orderId : Nat) (line : CartItem × Product) : DB :=
  { db with order_items := db.order_items ++ [mkOrderItem orderId line] }

/-- One execution of
`UPDATE products SET stock_quantity = stock_quantity - ? WHERE id = ?`. -/
def updateStockStep (db : DB) (qty : Nat) (pid : Nat) : DB :=
  { db with products := db.products.map (fun p =>
      if p.id == pid then
        { p with stock_quantity := p.stock_quantity - (qty : Int) }
      else p) }

/-- `DELETE FROM cart_items WHERE user_id = ?`. -/
def clearCartStep (db : DB) (u : Nat) : DB :=
  { db with cart_items := db.cart_items.filter (fun ci => ci.user_id != u) }

/-- `const subtotal = cartItems.reduce((sum, item) =>
sum + (item.price * item.quantity), 0)`. -/
def orderSubtotal (db : DB) (u : Nat) : ℚ :=
  (cartLines db u).foldl
    (fun sum item => sum + item.2.price * (item.1.quantity : ℚ)) 0

/-- `const taxAmount = subtotal * 0.08` (8% tax). -/
def orderTax (db : DB) (u : Nat) : ℚ :=
  orderSubtotal db u * (8 / 100)

/-- `const shippingAmount = subtotal > 100 ? 0 : 10` (free shipping
over $100). -/
def orderShipping (db : DB) (u : Nat) : ℚ :=
  if orderSubtotal db u > 100 then 0 else 10

/-- `const totalAmount = subtotal + taxAmount + shippingAmount`. -/
def orderTotal (db : DB) (u : Nat) : ℚ :=
  orderSubtotal db u + orderTax db u + orderShipping db u

/-- The write sequence of order creation, run to completion: the order
insert, then per cart line the item insert followed by the stock
decrement, then the cart clear. -/
def orderWritesDB (db : DB) (u : Nat) (req : OrderRequest)
    (orderNumber : String) (now : Nat) : DB :=
  let orderId := db.nextOrderId
  let db1 := insertOrderStep db u orderNumber (orderSubtotal db u)
    (orderTax db u) (orderShipping db u) (orderTotal db u)
    (jsOrStr req.paymentMethod "pending") (jsOrNullNat req.shippingAddressId)
    (jsOrNullNat req.billingAddressId) req.notes now
  let db2 := (cartLines db u).foldl
    (fun d line =>
      updateStockStep (insertItemStep d orderId line)
        line.1.quantity line.1.product_id) db1
  clearCartStep db2 u

/-- Order creation, `router.post('/')` of the orders router: reads the
joined cart, rejects an empty cart, rejects the first line with
insufficient stock, computes subtotal / 8% tax / flat-10-unless-over-100
shipping / total, then runs the write sequence (order insert, per-line
item insert and stock decrement, cart clear) and returns the new order's
id, order number and total. -/
def createOrder (db : DB) (u : Nat) (req : OrderRequest)
    (orderNumber : String) (now : Nat) : Except String CreateOrderResult :=
  let cartItems := cartLines db u
  if cartItems.isEmpty then
    .error "Cart is empty"
  else
    match cartItems.find?
        (fun item => decide (item.2.stock_quantity < (item.1.quantity : Int))) with
    | some item => .error ("Insufficient stock for " ++ item.2.name)
    | none =>
      .ok { db := orderWritesDB db u req orderNumber now
            orderId := db.nextOrderId
            orderNumber := orderNumber
            totalAmount := orderTotal db u }

/-- The write sequence of order creation as the list of its individual
SQL statements, in source order: the order insert, then per cart line the
item insert followed by the stock decrement, then the cart clear.  The
source opens no transaction (its `// Start transaction` comment
notwithstanding) and its `catch` performs no rollback, so an exception
thrown after `k` statements leaves exactly the first `k` statements'
effects committed. -/
def orderWriteSteps (db : DB) (u : Nat) (req : OrderRequest)
    (orderNumber : String) (now : Nat) : List (DB → DB) :=
  let orderId := db.nextOrderId
  (fun d => insertOrderStep d u orderNumber (orderSubtotal db u)
    (orderTax db u) (orderShipping db u) (orderTotal db u)
    (jsOrStr req.paymentMethod "pending") (jsOrNullNat req.shippingAddressId)
    (jsOrNullNat req.billingAddressId) req.notes now)
  :: ((cartLines db u).flatMap (fun line =>
      [fun d => insertItemStep d orderId line,
       fun d => updateStockStep d line.1.quantity line.1.product_id])
    ++ [fun d => clearCartStep d u])

/-- Run a prefix of a statement sequence against the database. -/
def runSteps (db : DB) (steps : List (DB → DB)) : DB :=
  steps.foldl (fun d f => f d) db

/-- The response payload of `router.post('/process')` when a payment
outcome (completed or failed) is recorded. -/
structure PaymentResult where
  db : DB
  success : Bool
  paymentId : Option String
deriving DecidableEq

/-- Payment processing, `router.post('/process')` in
`server/routes/payments.js`: rejects missing params, looks the order up
with `WHERE id = ? AND user_id = ? AND payment_status = 'pending'`, then
draws `Math.random() > 0.1` (the draw `rand` is an input here) and either
marks the payment completed (also confirming the order) or failed. -/
def processPayment (db : DB) (u : Nat) (orderId : Option Nat)
    (paymentMethod : Option String) (rand : ℚ) (paymentId : String)
    (now : Nat) : Except String PaymentResult :=
  if jsFalsyNat orderId || jsFalsyStr paymentMethod then
    .error "Order ID and payment method are required"
  else
    let oid := orderId.getD 0
    let pm := paymentMethod.getD ""
    match db.orders.find?
        (fun o => o.id == oid && o.user_id == u &&
          o.payment_status == "pending") with
    | none => .error "Order not found or already processed"
    | some _ =>
      if rand > 1 / 10 then
        .ok { db := { db with orders := db.orders.map (fun o =>
                if o.id == oid then
                  { o with
                    payment_status := "completed"
                    payment_method := pm
                    payment_id := some paymentId
                    status := "confirmed"
                    updated_at := now }
                else o) }
              success := true
              paymentId := some paymentId }
      else
        .ok { db := { db with orders := db.orders.map (fun o =>
                if o.id == oid then
                  { o with payment_status := "failed", updated_at := now }
                else o) }
              success := false
              paymentId := none }

/-- The six statuses accepted by `router.put('/:id/status')`. -/
def validStatuses : List String :=
  ["pending", "confirmed", "processing", "shipped", "delivered", "cancelled"]

/-- Admin order-status update, `router.put('/:id/status')` of the orders
router: rejects a status outside `validStatuses`, runs the `UPDATE` (whose
`CASE WHEN` stamps `shipped_at` / `delivered_at`), and reports 404 when
`result.changes = 0`, i.e. when no order has the given id. -/
def updateOrderStatus (db : DB) (oid : Nat) (status : String)
    (now : Nat) : Except String DB :=
  if !(validStatuses.contains status) then
    .error "Invalid status"
  else
    let newOrders := db.orders.map (fun o =>
      if o.id == oid then
        { o with
          status := status
          shipped_at := if status == "shipped" then some now else o.shipped_at
          delivered_at :=
            if status == "delivered" then some now else o.delivered_at
          updated_at := now }
      else o)
    if db.orders.any (fun o => o.id == oid) then
      .ok { db with orders := newOrders }
    else
      .error "Order not found"

/-- Admin product update, `router.put('/:id')` of the products router
(restricted to the columns in the `Product` embedding): the `UPDATE`
writes `stockQuantity || 0` and `isActive !== undefined ? isActive : 1`,
and only touches the `products` table; 404 when `result.changes = 0`. -/
def updateProduct (db : DB) (pid : Nat) (name : String) (price : ℚ)
    (stockQuantity : Option Int) (isActive : Option Bool) :
    Except String DB :=
  let newProducts := db.products.map (fun p =>
    if p.id == pid then
      { p with
        name := name
        price := price
        stock_quantity := stockQuantity.getD 0
        is_active := isActive.getD true }
    else p)
  if db.products.any (fun p => p.id == pid) then
    .ok { db with products := newProducts }
  else
    .error "Product not found"

/-- `router.post('/add')` in `server/routes/cart.js`: add a product to the
cart, merging with an existing line and re-checking stock. -/
def addToCart (db : DB) (u : Nat) (productId : Option Nat)
    (quantity : Nat) : Except String DB :=
  if jsFalsyNat productId then
    .error "Product ID is required"
  else
    let pid := productId.getD 0
    match db.products.find? (fun p => p.id == pid && p.is_active) with
    | none => .error "Product not found"
    | some product =>
      if product.stock_quantity < (quantity : Int) then
        .error "Insufficient stock"
      else
        match db.cart_items.find?
            (fun ci => ci.user_id == u && ci.product_id == pid) with
        | some existingItem =>
          let newQuantity := existingItem.quantity + quantity
          if product.stock_quantity < (newQuantity : Int) then
            .error "Insufficient stock"
          else
            .ok { db with cart_items := db.cart_items.map (fun ci =>
                    if ci.id == existingItem.id then
                      { ci with quantity := newQuantity }
                    else ci) }
        | none =>
          .ok { db with
                cart_items := db.cart_items ++ [{
                  id := db.nextCartItemId
                  user_id := u
                  product_id := pid
                  quantity := quantity }]
                nextCartItemId := db.nextCartItemId + 1 }

/-- `router.put('/update/:id')` in `server/routes/cart.js`: change a cart
line's quantity after ownership and stock checks. -/
def updateCartItem (db : DB) (u : Nat) (cid : Nat) (quantity : Nat) :
    Except String DB :=
  if quantity < 1 then
    .error "Valid quantity is required"
  else
    match (db.cart_items.find?
        (fun ci => ci.id == cid && ci.user_id == u)).bind
        (fun ci => (db.products.find? (fun p => p.id == ci.product_id)).map
          (fun p => (ci, p))) with
    | none => .error "Cart item not found"
    | some line =>
      if line.2.stock_quantity < (quantity : Int) then
        .error "Insufficient stock"
      else
        .ok { db with cart_items := db.cart_items.map (fun ci =>
                if ci.id == cid then { ci with quantity := quantity } else ci) }

/-- `router.delete('/remove/:id')` in `server/routes/cart.js`. -/
def removeCartItem (db : DB) (u : Nat) (cid : Nat) : Except String DB :=
  let remaining := db.cart_items.filter
    (fun ci => !(ci.id == cid && ci.user_id == u))
  if remaining.length == db.cart_items.length then
    .error "Cart item not found"
  else
    .ok { db with cart_items := remaining }

/-- `router.delete('/clear')` in `server/routes/cart.js`. -/
def clearCart (db : DB) (u : Nat) : Except String DB :=
  .ok (clearCartStep db u)

/-- A mutating request of the workflow, with its request fields and
non-deterministic inputs. -/
inductive Op where
  | createOrder (u : Nat) (req : OrderRequest) (orderNumber : String)
      (now : Nat)
  | processPayment (u : Nat) (orderId : Option Nat)
      (paymentMethod : Option String) (rand : ℚ) (paymentId : String)
      (now : Nat)
  | updateOrderStatus (oid : Nat) (status : String) (now : Nat)
  | updateProduct (pid : Nat) (name : String) (price : ℚ)
      (stockQuantity : Option Int) (isActive : Option Bool)
  | addToCart (u : Nat) (productId : Option Nat) (quantity : Nat)
  | updateCartItem (u : Nat) (cid : Nat) (quantity : Nat)
  | removeCartItem (u : Nat) (cid : Nat)
  | clearCart (u : Nat)

/-- The database produced when a mutating request succeeds (rejected
requests return before reaching any write, so they produce `none`). -/
def applyOp (db : DB) : Op → Option DB
  | .createOrder u req orderNumber now =>
    (createOrder db u req orderNumber now).toOption.map (fun r => r.db)
  | .processPayment u orderId paymentMethod rand paymentId now =>
    (processPayment db u orderId paymentMethod rand paymentId now).toOption.map
      (fun r => r.db)
  | .updateOrderStatus oid status now =>
    (updateOrderStatus db oid status now).toOption
  | .updateProduct pid name price stockQuantity isActive =>
    (updateProduct db pid name price stockQuantity isActive).toOption
  | .addToCart u productId quantity =>
    (addToCart db u productId quantity).toOption
  | .updateCartItem u cid quantity =>
    (updateCartItem db u cid quantity).toOption
  | .removeCartItem u cid =>
    (removeCartItem db u cid).toOption
  | .clearCart u =>
    (clearCart db u).toOption

/-! ## Concrete database instances

Small concrete stores used to evaluate the handlers at specific inputs. -/

/-- One active product priced 10.00 with stock 5; user 1's cart holds
quantity 3 of it (the spec's first scenario). -/
def dbA : DB :=
  { products := [{ id := 1, name := "Widget", price := 10, stock_quantity := 5,
                   is_active := true }]
    cart_items := [{ id := 1, user_id := 1, product_id := 1, quantity := 3 }]
    orders := []
    order_items := []
    nextOrderId := 1
    nextCartItemId := 2 }

/-- One active product priced 60.00 with stock 2; user 1's cart holds
quantity 2 of it (the spec's second scenario). -/
def dbB : DB :=
  { products := [{ id := 1, name := "Gadget", price := 60, stock_quantity := 2,
                   is_active := true }]
    cart_items := [{ id := 1, user_id := 1, product_id := 1, quantity := 2 }]
    orders := []
    order_items := []
    nextOrderId := 1
    nextCartItemId := 2 }

/-- User 1's cart holds one line on an active product and one line on an
inactive product. -/
def dbC : DB :=
  { products := [{ id := 1, name := "Widget", price := 10, stock_quantity := 5,
                   is_active := true },
                 { id := 2, name := "Retired", price := 7, stock_quantity := 5,
                   is_active := false }]
    cart_items := [{ id := 1, user_id := 1, product_id := 1, quantity := 1 },
                   { id := 2, user_id := 1, product_id := 2, quantity := 1 }]
    orders := []
    order_items := []
    nextOrderId := 1
    nextCartItemId := 3 }

/-- A store with an empty cart for user 1. -/
def dbE : DB :=
  { products := [{ id := 1, name := "Widget", price := 10, stock_quantity := 5,
                   is_active := true }]
    cart_items := []
    orders := []
    order_items := []
    nextOrderId := 1
    nextCartItemId := 1 }

/-- A store holding one already-created order (id 1, pending payment,
owned by user 1) with one order item snapshotting product 1 at price
10.00. -/
def dbP : DB :=
  { products := [{ id := 1, name := "Widget", price := 10, stock_quantity := 2,
                   is_active := true }]
    cart_items := []
    orders := [{ id := 1, user_id := 1, order_number := "ORD-1"
                 status := "pending", subtotal := 30, tax_amount := 24/10
                 shipping_amount := 10, total_amount := 424/10
                 payment_status := "pending", payment_method := "pending"
                 payment_id := none, shipping_address_id := none
                 billing_address_id := none, notes := none
                 shipped_at := none, delivered_at := none, updated_at := 0 }]
    order_items := [{ order_id := 1, product_id := 1, quantity := 3,
                      unit_price := 10, total_price := 30 }]
    nextOrderId := 2
    nextCartItemId := 1 }

/-- A store whose single cart line requests more than the available
stock: user 1 wants quantity 3 but only 2 are in stock. -/
def dbL : DB :=
  { products := [{ id := 1, name := "Widget", price := 10, stock_quantity := 2,
                   is_active := true }]
    cart_items := [{ id := 1, user_id := 1, product_id := 1, quantity := 3 }]
    orders := []
    order_items := []
    nextOrderId := 1
    nextCartItemId := 2 }

/-- An order-creation request body with every optional field omitted. -/
def emptyReq : OrderRequest :=
  { shippingAddressId := none
    billingAddressId := none
    paymentMethod := none
    notes := none }

/-! ## Basic lemmas about the write steps -/

@[simp] lemma clearCartStep_products (db : DB) (u : Nat) :
    (clearCartStep db u).products = db.products := rfl

@[simp] lemma clearCartStep_orders (db : DB) (u : Nat) :
    (clearCartStep db u).orders = db.orders := rfl

@[simp] lemma clearCartStep_order_items (db : DB) (u : Nat) :
    (clearCartStep db u).order_items = db.order_items := rfl

@[simp] lemma clearCartStep_cart_items (db : DB) (u : Nat) :
    (clearCartStep db u).cart_items =
      db.cart_items.filter (fun ci => ci.user_id != u) := rfl

@[simp] lemma insertItemStep_orders (db : DB) (oid : Nat)
    (line : CartItem × Product) :
    (insertItemStep db oid line).orders = db.orders := rfl

@[simp] lemma insertItemStep_products (db : DB) (oid : Nat)
    (line : CartItem × Product) :
    (insertItemStep db oid line).products = db.products := rfl

@[simp] lemma insertItemStep_cart_items (db : DB) (oid : Nat)
    (line : CartItem × Product) :
    (insertItemStep db oid line).cart_items = db.cart_items := rfl

@[simp] lemma insertItemStep_order_items (db : DB) (oid : Nat)
    (line : CartItem × Product) :
    (insertItemStep db oid line).order_items =
      db.order_items ++ [mkOrderItem oid line] := rfl

@[simp] lemma updateStockStep_orders (db : DB) (qty pid : Nat) :
    (updateStockStep db qty pid).orders = db.orders := rfl

@[simp] lemma updateStockStep_order_items (db : DB) (qty pid : Nat) :
    (updateStockStep db qty pid).order_items = db.order_items := rfl

@[simp] lemma updateStockStep_cart_items (db : DB) (qty pid : Nat) :
    (updateStockStep db qty pid).cart_items = db.cart_items := rfl

@[simp] lemma insertOrderStep_orders (db : DB) (u : Nat) (orderNumber : String)
    (subtotal taxAmount shippingAmount totalAmount : ℚ) (pm : String)
    (sa ba : Option Nat) (notes : Option String) (now : Nat) :
    (insertOrderStep db u orderNumber subtotal taxAmount shippingAmount
      totalAmount pm sa ba notes now).orders =
      db.orders ++ [{
        id := db.nextOrderId
        user_id := u
        order_number := orderNumber
        status := "pending"
        subtotal := subtotal
        tax_amount := taxAmount
        shipping_amount := shippingAmount
        total_amount := totalAmount
        payment_status := "pending"
        payment_method := pm
        payment_id := none
        shipping_address_id := sa
        billing_address_id := ba
        notes := notes
        shipped_at := none
        delivered_at := none
        updated_at := now }] := rfl

@[simp] lemma insertOrderStep_order_items (db : DB) (u : Nat)
    (orderNumber : String) (subtotal taxAmount shippingAmount totalAmount : ℚ)
    (pm : String) (sa ba : Option Nat) (notes : Option String) (now : Nat) :
    (insertOrderStep db u orderNumber subtotal taxAmount shippingAmount
      totalAmount pm sa ba notes now).order_items = db.order_items := rfl

@[simp] lemma insertOrderStep_products (db : DB) (u : Nat)
    (orderNumber : String) (subtotal taxAmount shippingAmount totalAmount : ℚ)
    (pm : String) (sa ba : Option Nat) (notes : Option String) (now : Nat) :
    (insertOrderStep db u orderNumber subtotal taxAmount shippingAmount
      totalAmount pm sa ba notes now).products = db.products := rfl

@[simp] lemma insertOrderStep_cart_items (db : DB) (u : Nat)
    (orderNumber : String) (subtotal taxAmount shippingAmount totalAmount : ℚ)
    (pm : String) (sa ba : Option Nat) (notes : Option String) (now : Nat) :
    (insertOrderStep db u orderNumber subtotal taxAmount shippingAmount
      totalAmount pm sa ba notes now).cart_items = db.cart_items := rfl

/-! ## The per-line write loop -/

/-- The `orders` table is untouched by the per-line item/stock loop. -/
lemma writeLoop_orders (lines : List (CartItem × Product)) (oid : Nat)
    (d : DB) :
    (lines.foldl
      (fun d line =>
        updateStockStep (insertItemStep d oid line)
          line.1.quantity line.1.product_id) d).orders = d.orders := by
  induction lines generalizing d with
  | nil => rfl
  | cons x xs ih => simp [List.foldl_cons, ih]

/-- The `cart_items` table is untouched by the per-line item/stock loop. -/
lemma writeLoop_cart_items (lines : List (CartItem × Product)) (oid : Nat)
    (d : DB) :
    (lines.foldl
      (fun d line =>
        updateStockStep (insertItemStep d oid line)
          line.1.quantity line.1.product_id) d).cart_items = d.cart_items := by
  induction lines generalizing d with
  | nil => rfl
  | cons x xs ih => simp [List.foldl_cons, ih]

/-- The per-line loop appends exactly one order-item snapshot per line. -/
lemma writeLoop_order_items (lines : List (CartItem × Product)) (oid : Nat)
    (d : DB) :
    (lines.foldl
      (fun d line =>
        updateStockStep (insertItemStep d oid line)
          line.1.quantity line.1.product_id) d).order_items =
      d.order_items ++ lines.map (mkOrderItem oid) := by
  induction lines generalizing d with
  | nil => simp
  | cons x xs ih => simp [List.foldl_cons, ih]

/-- The per-line loop's effect on `products` is the fold of the per-line
stock decrements. -/
lemma writeLoop_products (lines : List (CartItem × Product)) (oid : Nat)
    (d : DB) :
    (lines.foldl
      (fun d line =>
        updateStockStep (insertItemStep d oid line)
          line.1.quantity line.1.product_id) d).products =
      lines.foldl
        (fun ps line => ps.map (fun p =>
          if p.id == line.1.product_id then
            { p with stock_quantity := p.stock_quantity - (line.1.quantity : Int) }
          else p)) d.products := by
  induction lines generalizing d with
  | nil => rfl
  | cons x xs ih =>
    rw [List.foldl_cons, List.foldl_cons, ih]
    congr 1

/-! ## The completed write sequence -/

lemma orderWritesDB_orders (db : DB) (u : Nat) (req : OrderRequest)
    (orderNumber : String) (now : Nat) :
    (orderWritesDB db u req orderNumber now).orders =
      db.orders ++ [{
        id := db.nextOrderId
        user_id := u
        order_number := orderNumber
        status := "pending"
        subtotal := orderSubtotal db u
        tax_amount := orderTax db u
        shipping_amount := orderShipping db u
        total_amount := orderTotal db u
        payment_status := "pending"
        payment_method := jsOrStr req.paymentMethod "pending"
        payment_id := none
        shipping_address_id := jsOrNullNat req.shippingAddressId
        billing_address_id := jsOrNullNat req.billingAddressId
        notes := req.notes
        shipped_at := none
        delivered_at := none
        updated_at := now }] := by
  simp [orderWritesDB, writeLoop_orders]

lemma orderWritesDB_order_items (db : DB) (u : Nat) (req : OrderRequest)
    (orderNumber : String) (now : Nat) :
    (orderWritesDB db u req orderNumber now).order_items =
      db.order_items ++ (cartLines db u).map (mkOrderItem db.nextOrderId) := by
  simp [orderWritesDB, writeLoop_order_items]

lemma orderWritesDB_cart_items (db : DB) (u : Nat) (req : OrderRequest)
    (orderNumber : String) (now : Nat) :
    (orderWritesDB db u req orderNumber now).cart_items =
      db.cart_items.filter (fun ci => ci.user_id != u) := by
  simp [orderWritesDB, writeLoop_cart_items]

lemma orderWritesDB_products (db : DB) (u : Nat) (req : OrderRequest)
    (orderNumber : String) (now : Nat) :
    (orderWritesDB db u req orderNumber now).products =
      (cartLines db u).foldl
        (fun ps line => ps.map (fun p =>
          if p.id == line.1.product_id then
            { p with stock_quantity := p.stock_quantity - (line.1.quantity : Int) }
          else p)) db.products := by
  simp [orderWritesDB, writeLoop_products]

/-! ## Reducing the order-creation branches -/

lemma createOrder_ok_of_checks (db : DB) (u : Nat) (req : OrderRequest)
    (orderNumber : String) (now : Nat)
    (h1 : cartLines db u ≠ [])
    (h2 : ∀ l ∈ cartLines db u, ¬ l.2.stock_quantity < (l.1.quantity : Int)) :
    createOrder db u req orderNumber now =
      .ok { db := orderWritesDB db u req orderNumber now
            orderId := db.nextOrderId
            orderNumber := orderNumber
            totalAmount := orderTotal db u } := by
  have e1 : (cartLines db u).isEmpty = false := by
    cases hc : cartLines db u with
    | nil => exact absurd hc h1
    | cons a as => rfl
  have e2 : (cartLines db u).find?
      (fun item => decide (item.2.stock_quantity < (item.1.quantity : Int))) =
      none := by
    apply List.find?_eq_none.mpr
    intro x hx
    simpa using h2 x hx
  simp [createOrder, e1, e2]

lemma createOrder_ok_shape (db : DB) (u : Nat) (req : OrderRequest)
    (orderNumber : String) (now : Nat) (res : CreateOrderResult)
    (h : createOrder db u req orderNumber now = .ok res) :
    res = { db := orderWritesDB db u req orderNumber now
            orderId := db.nextOrderId
            orderNumber := orderNumber
            totalAmount := orderTotal db u } := by
  cases hc : (cartLines db u).isEmpty with
  | true => simp [createOrder, hc] at h
  | false =>
    cases hf : (cartLines db u).find?
        (fun item => decide (item.2.stock_quantity < (item.1.quantity : Int))) with
    | some x => simp [createOrder, hc, hf] at h
    | none =>
      simp [createOrder, hc, hf] at h
      exact h.symm

lemma createOrder_error_cases (db : DB) (u : Nat) (req : OrderRequest)
    (orderNumber : String) (now : Nat) (e : String)
    (h : createOrder db u req orderNumber now = .error e) :
    cartLines db u = [] ∨
      ∃ l ∈ cartLines db u, l.2.stock_quantity < (l.1.quantity : Int) := by
  by_cases hl : cartLines db u = []
  · exact Or.inl hl
  · right
    have hc : (cartLines db u).isEmpty = false := by
      cases hll : cartLines db u with
      | nil => exact absurd hll hl
      | cons a as => rfl
    cases hf : (cartLines db u).find?
        (fun item => decide (item.2.stock_quantity < (item.1.quantity : Int))) with
    | none => simp [createOrder, hc, hf] at h
    | some x =>
      refine ⟨x, List.mem_of_find?_eq_some hf, ?_⟩
      simpa using List.find?_some hf

/-! ## Subtotal as a sum over the snapshotted lines -/

lemma foldl_add_eq_sum (l : List (CartItem × Product)) (a : ℚ) :
    l.foldl (fun sum item => sum + item.2.price * (item.1.quantity : ℚ)) a =
      a + (l.map (fun item => item.2.price * (item.1.quantity : ℚ))).sum := by
  induction l generalizing a with
  | nil => simp
  | cons x xs ih =>
    rw [List.foldl_cons, ih]
    simp [List.sum_cons]
    ring

lemma orderSubtotal_eq_sum (db : DB) (u : Nat) :
    orderSubtotal db u =
      ((cartLines db u).map (fun l => l.2.price * (l.1.quantity : ℚ))).sum := by
  simpa using foldl_add_eq_sum (cartLines db u) 0

/-! ## The stock decrement fold, per product -/

lemma stockFold_eq_map (lines : List (CartItem × Product)) (ps : List Product)
    (h : (lines.map (fun l => l.1.product_id)).Nodup) :
    lines.foldl
      (fun ps line => ps.map (fun p =>
        if p.id == line.1.product_id then
          { p with stock_quantity := p.stock_quantity - (line.1.quantity : Int) }
        else p)) ps =
      ps.map (fun p =>
        match lines.find? (fun l => l.1.product_id == p.id) with
        | some l =>
          { p with stock_quantity := p.stock_quantity - (l.1.quantity : Int) }
        | none => p) := by
  induction lines generalizing ps with
  | nil => simp
  | cons x xs ih =>
    rw [List.map_cons, List.nodup_cons] at h
    rw [List.foldl_cons, ih _ h.2, List.map_map]
    apply List.map_congr_left
    intro p _
    by_cases hp : p.id = x.1.product_id
    · have hfind : xs.find? (fun l => l.1.product_id == x.1.product_id) = none := by
        apply List.find?_eq_none.mpr
        intro l hl
        simp only [beq_iff_eq]
        intro hlp
        exact h.1 (List.mem_map.mpr ⟨l, hl, hlp⟩)
      rw [List.find?_cons_of_pos
        (p := fun (l : CartItem × Product) => l.1.product_id == p.id) _
        (by simpa [beq_iff_eq] using hp.symm)]
      simp [hp, hfind]
    · rw [List.find?_cons_of_neg
        (p := fun (l : CartItem × Product) => l.1.product_id == p.id) _
        (by simp only [beq_iff_eq]; exact fun hcontra => hp hcontra.symm)]
      simp [hp]

/-! ## Additional helper lemmas -/

lemma filter_user_ne_then_eq (l : List CartItem) (u : Nat) :
    (l.filter (fun ci => ci.user_id != u)).filter
      (fun ci => ci.user_id == u) = [] := by
  induction l with
  | nil => rfl
  | cons x xs ih =>
    by_cases hx : x.user_id = u <;> simp [List.filter_cons, hx, ih]

lemma mapped_orders_at (l : List Order) (f : Order → Order) (i : Nat)
    (hi : i < l.length) :
    ∃ o o2, l[i]? = some o ∧ (l.map f)[i]? = some o2 ∧ o2 = f o := by
  refine ⟨l[i], f l[i], List.getElem?_eq_getElem hi, ?_, rfl⟩
  rw [List.getElem?_map, List.getElem?_eq_getElem hi]
  rfl

lemma snapshot_goal_of_eq (db db2 : DB)
    (ho : db2.orders = db.orders) (hi : db2.order_items = db.order_items) :
    (∃ tl, db2.order_items = db.order_items ++ tl) ∧
    db.orders.length ≤ db2.orders.length ∧
    (∀ i, i < db.orders.length →
      ∃ o o2, db.orders[i]? = some o ∧ db2.orders[i]? = some o2 ∧
        o2.id = o.id ∧ o2.order_number = o.order_number ∧
        o2.subtotal = o.subtotal ∧ o2.tax_amount = o.tax_amount ∧
        o2.shipping_amount = o.shipping_amount ∧
        o2.total_amount = o.total_amount) := by
  refine ⟨⟨[], by simp [hi]⟩, by rw [ho], ?_⟩
  intro i hilt
  refine ⟨db.orders[i], db.orders[i], List.getElem?_eq_getElem hilt, ?_,
    rfl, rfl, rfl, rfl, rfl, rfl⟩
  rw [ho]
  exact List.getElem?_eq_getElem hilt

lemma snapshot_goal_of_map (db db2 : DB) (f : Order → Order)
    (ho : db2.orders = db.orders.map f) (hi : db2.order_items = db.order_items)
    (hf : ∀ o, (f o).id = o.id ∧ (f o).order_number = o.order_number ∧
      (f o).subtotal = o.subtotal ∧ (f o).tax_amount = o.tax_amount ∧
      (f o).shipping_amount = o.shipping_amount ∧
      (f o).total_amount = o.total_amount) :
    (∃ tl, db2.order_items = db.order_items ++ tl) ∧
    db.orders.length ≤ db2.orders.length ∧
    (∀ i, i < db.orders.length →
      ∃ o o2, db.orders[i]? = some o ∧ db2.orders[i]? = some o2 ∧
        o2.id = o.id ∧ o2.order_number = o.order_number ∧
        o2.subtotal = o.subtotal ∧ o2.tax_amount = o.tax_amount ∧
        o2.shipping_amount = o.shipping_amount ∧
        o2.total_amount = o.total_amount) := by
  refine ⟨⟨[], by simp [hi]⟩, by rw [ho]; simp, ?_⟩
  intro i hilt
  obtain ⟨o, o2, hg1, hg2, ho2⟩ := mapped_orders_at db.orders f i hilt
  obtain ⟨e1, e2, e3, e4, e5, e6⟩ := hf o
  rw [← ho] at hg2
  exact ⟨o, o2, hg1, hg2, by rw [ho2]; exact e1, by rw [ho2]; exact e2,
    by rw [ho2]; exact e3, by rw [ho2]; exact e4, by rw [ho2]; exact e5,
    by rw [ho2]; exact e6⟩

lemma snapshot_goal_of_append (db db2 : DB) (newOrders : List Order)
    (newItems : List OrderItem)
    (ho : db2.orders = db.orders ++ newOrders)
    (hi : db2.order_items = db.order_items ++ newItems) :
    (∃ tl, db2.order_items = db.order_items ++ tl) ∧
    db.orders.length ≤ db2.orders.length ∧
    (∀ i, i < db.orders.length →
      ∃ o o2, db.orders[i]? = some o ∧ db2.orders[i]? = some o2 ∧
        o2.id = o.id ∧ o2.order_number = o.order_number ∧
        o2.subtotal = o.subtotal ∧ o2.tax_amount = o.tax_amount ∧
        o2.shipping_amount = o.shipping_amount ∧
        o2.total_amount = o.total_amount) := by
  refine ⟨⟨newItems, hi⟩, by rw [ho]; simp, ?_⟩
  intro i hilt
  refine ⟨db.orders[i], db.orders[i], List.getElem?_eq_getElem hilt, ?_,
    rfl, rfl, rfl, rfl, rfl, rfl⟩
  rw [ho, List.getElem?_append_left hilt]
  exact List.getElem?_eq_getElem hilt

/-! ## Claim theorems -/

/-- Claim C8: on the concrete cart [price 10.00, qty 3] with stock 5 order
creation yields subtotal 30.00, shipping 10.00, tax 2.40 and total 42.40,
and on the concrete cart [price 60.00, qty 2] with stock 2 it yields
subtotal 120.00, shipping 0.00, tax 9.60 and total 129.60, both in the
returned total and in the persisted order row. -/
theorem createOrder_concrete_scenarios :
    ((createOrder dbA 1 emptyReq "ORD-A" 0).toOption.map
      (fun r => (r.totalAmount,
        r.db.orders.map (fun o =>
          (o.subtotal, o.shipping_amount, o.tax_amount, o.total_amount)))) =
      some (424/10, [(30, 10, 24/10, 424/10)])) ∧
    ((createOrder dbB 1 emptyReq "ORD-B" 0).toOption.map
      (fun r => (r.totalAmount,
        r.db.orders.map (fun o =>
          (o.subtotal, o.shipping_amount, o.tax_amount, o.total_amount)))) =
      some (1296/10, [(120, 0, 96/10, 1296/10)])) := by
  constructor <;> with_unfolding_all rfl

/-- Claim C2: the rejection paths (empty cart, insufficient stock) return
before any write, but the write sequence itself is not one atomic unit —
the source opens no transaction, so an exception thrown after the first
statement (the order `INSERT`) leaves a committed order row with no order
items while the cart and stock are untouched, a state distinct from both
"nothing persisted" and the completed run (whose order has one item). -/
theorem createOrder_write_sequence_not_atomic :
    (createOrder dbE 1 emptyReq "ORD-E" 0 = .error "Cart is empty") ∧
    (createOrder dbL 1 emptyReq "ORD-L" 0 =
      .error "Insufficient stock for Widget") ∧
    ((runSteps dbA ((orderWriteSteps dbA 1 emptyReq "ORD-A" 0).take 1)).orders.length
      = 1) ∧
    ((runSteps dbA ((orderWriteSteps dbA 1 emptyReq "ORD-A" 0).take 1)).order_items
      = []) ∧
    ((runSteps dbA ((orderWriteSteps dbA 1 emptyReq "ORD-A" 0).take 1)).cart_items
      = dbA.cart_items) ∧
    ((runSteps dbA ((orderWriteSteps dbA 1 emptyReq "ORD-A" 0).take 1)).products
      = dbA.products) ∧
    ((createOrder dbA 1 emptyReq "ORD-A" 0).toOption.map
      (fun r => r.db.order_items.length) = some 1) := by
  refine ⟨?_, ?_, ?_, ?_, ?_, ?_, ?_⟩ <;> with_unfolding_all rfl

/-- Claim C7 (counterexample): user 1's cart in `dbC` has a line whose
product (id 2) is inactive, yet order creation is not rejected — it
succeeds, silently drops that line (the order snapshots only product 1),
and deletes the whole cart including the inactive-product line. -/
theorem createOrder_inactive_line_not_rejected :
    (dbC.cart_items.map (fun ci => (ci.user_id, ci.product_id)) =
      [(1, 1), (1, 2)]) ∧
    (dbC.products.map (fun p => (p.id, p.is_active)) =
      [(1, true), (2, false)]) ∧
    ((createOrder dbC 1 emptyReq "ORD-C" 0).toOption.map
      (fun r => (r.db.order_items.map (fun oi => oi.product_id),
        r.db.cart_items))) = some ([1], []) := by
  refine ⟨?_, ?_, ?_⟩ <;> with_unfolding_all rfl

/-- Claim C7 (amended): a cart line whose product is inactive is silently
excluded rather than causing rejection — the cart query joins only active
products, so the order snapshots exactly the active-product lines; if no
line survives the join the operation is rejected as an empty cart; on
success the user's entire cart (inactive-product lines included) is
deleted. -/
theorem createOrder_inactive_lines_dropped (db : DB) (u : Nat)
    (req : OrderRequest) (orderNumber : String) (now : Nat) :
    (cartLines db u = [] →
      createOrder db u req orderNumber now = .error "Cart is empty") ∧
    (∀ res, createOrder db u req orderNumber now = .ok res →
      res.db.order_items =
        db.order_items ++ (cartLines db u).map (mkOrderItem db.nextOrderId) ∧
      res.db.cart_items = db.cart_items.filter (fun ci => ci.user_id != u)) := by
  constructor
  · intro h
    simp [createOrder, h]
  · intro res hres
    rw [createOrder_ok_shape db u req orderNumber now res hres]
    exact ⟨orderWritesDB_order_items db u req orderNumber now,
      orderWritesDB_cart_items db u req orderNumber now⟩

/-- Witness for the amended C7 theorem at concrete inputs: an empty-join
cart is rejected, and the successful `dbC` run snapshots exactly the one
active line. -/
theorem createOrder_inactive_lines_dropped_witness :
    (createOrder dbE 1 emptyReq "ORD-E" 1 = .error "Cart is empty") ∧
    ((createOrder dbC 1 emptyReq "ORD-C" 1).toOption.map
      (fun r => r.db.order_items) =
      some ((cartLines dbC 1).map (mkOrderItem 1))) := by
  constructor
  · exact (createOrder_inactive_lines_dropped dbE 1 emptyReq "ORD-E" 1).1
      (by with_unfolding_all rfl)
  · have h := (createOrder_inactive_lines_dropped dbC 1 emptyReq "ORD-C" 1).2
    cases hres : createOrder dbC 1 emptyReq "ORD-C" 1 with
    | error e =>
      have : False := by
        have hcontra := hres
        rw [show createOrder dbC 1 emptyReq "ORD-C" 1 =
          .ok ((createOrder dbC 1 emptyReq "ORD-C" 1).toOption.get
            (by with_unfolding_all rfl)) from by with_unfolding_all rfl] at hcontra
        cases hcontra
      exact absurd this (by simp)
    | ok res =>
      have h2 := h res hres
      show some res.db.order_items = some ((cartLines dbC 1).map (mkOrderItem 1))
      rw [h2.1]
      with_unfolding_all rfl

/-- Claim C1: for every user whose joined cart is non-empty and has
sufficient stock on every line, order creation succeeds; it computes
subtotal as the sum of unit price × quantity over the cart lines, tax as
subtotal × 0.08, shipping as 0 when subtotal > 100 and 10 otherwise, and
total as their sum, and returns the created order id, the order number and
this total, which is also what the persisted order row records. -/
theorem createOrder_totals_spec (db : DB) (u : Nat) (req : OrderRequest)
    (orderNumber : String) (now : Nat)
    (h1 : cartLines db u ≠ [])
    (h2 : ∀ l ∈ cartLines db u, (l.1.quantity : Int) ≤ l.2.stock_quantity) :
    ∃ res : CreateOrderResult,
      createOrder db u req orderNumber now = .ok res ∧
      res.orderId = db.nextOrderId ∧
      res.orderNumber = orderNumber ∧
      orderSubtotal db u =
        ((cartLines db u).map (fun l => l.2.price * (l.1.quantity : ℚ))).sum ∧
      orderTax db u = orderSubtotal db u * (8 / 100) ∧
      orderShipping db u = (if orderSubtotal db u > 100 then 0 else 10) ∧
      res.totalAmount =
        orderSubtotal db u + orderTax db u + orderShipping db u ∧
      (res.db.orders.getLast?).map (fun o =>
          (o.id, o.subtotal, o.tax_amount, o.shipping_amount, o.total_amount)) =
        some (db.nextOrderId, orderSubtotal db u, orderTax db u,
          orderShipping db u, res.totalAmount) := by
  have h2n : ∀ l ∈ cartLines db u,
      ¬ l.2.stock_quantity < (l.1.quantity : Int) :=
    fun l hl => not_lt.mpr (h2 l hl)
  refine ⟨_, createOrder_ok_of_checks db u req orderNumber now h1 h2n,
    rfl, rfl, orderSubtotal_eq_sum db u, rfl, rfl, rfl, ?_⟩
  show ((orderWritesDB db u req orderNumber now).orders.getLast?).map _ = _
  rw [orderWritesDB_orders, List.getLast?_concat]
  rfl

/-- Witness for C1 at the concrete store `dbA`. -/
theorem createOrder_totals_spec_witness :
    ∃ res : CreateOrderResult,
      createOrder dbA 1 emptyReq "ORD-A" 0 = .ok res ∧
      res.orderId = dbA.nextOrderId ∧
      res.orderNumber = "ORD-A" ∧
      orderSubtotal dbA 1 =
        ((cartLines dbA 1).map (fun l => l.2.price * (l.1.quantity : ℚ))).sum ∧
      orderTax dbA 1 = orderSubtotal dbA 1 * (8 / 100) ∧
      orderShipping dbA 1 = (if orderSubtotal dbA 1 > 100 then 0 else 10) ∧
      res.totalAmount =
        orderSubtotal dbA 1 + orderTax dbA 1 + orderShipping dbA 1 ∧
      (res.db.orders.getLast?).map (fun o =>
          (o.id, o.subtotal, o.tax_amount, o.shipping_amount, o.total_amount)) =
        some (dbA.nextOrderId, orderSubtotal dbA 1, orderTax dbA 1,
          orderShipping dbA 1, res.totalAmount) :=
  createOrder_totals_spec dbA 1 emptyReq "ORD-A" 0
    (by with_unfolding_all decide) (by with_unfolding_all decide)

/-- Claim C4: a successful order creation from a non-empty,
sufficiently-stocked cart appends exactly one order row, appends one
order-item snapshot (product id, quantity, unit price, line total) per
cart line, decrements each referenced product's stock by exactly the
ordered quantity, and leaves the user's cart empty. -/
theorem createOrder_success_effects (db : DB) (u : Nat) (req : OrderRequest)
    (orderNumber : String) (now : Nat)
    (h1 : cartLines db u ≠ [])
    (h2 : ∀ l ∈ cartLines db u, (l.1.quantity : Int) ≤ l.2.stock_quantity)
    (h3 : ((cartLines db u).map (fun l => l.1.product_id)).Nodup) :
    ∃ res : CreateOrderResult,
      createOrder db u req orderNumber now = .ok res ∧
      res.db.orders.length = db.orders.length + 1 ∧
      res.db.order_items =
        db.order_items ++ (cartLines db u).map (mkOrderItem db.nextOrderId) ∧
      res.db.products = db.products.map (fun p =>
        match (cartLines db u).find? (fun l => l.1.product_id == p.id) with
        | some l =>
          { p with stock_quantity := p.stock_quantity - (l.1.quantity : Int) }
        | none => p) ∧
      res.db.cart_items.filter (fun ci => ci.user_id == u) = [] := by
  have h2n : ∀ l ∈ cartLines db u,
      ¬ l.2.stock_quantity < (l.1.quantity : Int) :=
    fun l hl => not_lt.mpr (h2 l hl)
  refine ⟨_, createOrder_ok_of_checks db u req orderNumber now h1 h2n,
    ?_, ?_, ?_, ?_⟩
  · show (orderWritesDB db u req orderNumber now).orders.length = _
    rw [orderWritesDB_orders]
    simp
  · exact orderWritesDB_order_items db u req orderNumber now
  · show (orderWritesDB db u req orderNumber now).products = _
    rw [orderWritesDB_products]
    exact stockFold_eq_map (cartLines db u) db.products h3
  · show ((orderWritesDB db u req orderNumber now).cart_items).filter
      (fun ci => ci.user_id == u) = []
    rw [orderWritesDB_cart_items]
    exact filter_user_ne_then_eq db.cart_items u

/-- Witness for C4 at the concrete store `dbA`. -/
theorem createOrder_success_effects_witness :
    ∃ res : CreateOrderResult,
      createOrder dbA 1 emptyReq "ORD-A" 0 = .ok res ∧
      res.db.orders.length = dbA.orders.length + 1 ∧
      res.db.order_items =
        dbA.order_items ++ (cartLines dbA 1).map (mkOrderItem dbA.nextOrderId) ∧
      res.db.products = dbA.products.map (fun p =>
        match (cartLines dbA 1).find? (fun l => l.1.product_id == p.id) with
        | some l =>
          { p with stock_quantity := p.stock_quantity - (l.1.quantity : Int) }
        | none => p) ∧
      res.db.cart_items.filter (fun ci => ci.user_id == 1) = [] :=
  createOrder_success_effects dbA 1 emptyReq "ORD-A" 0
    (by with_unfolding_all decide) (by with_unfolding_all decide)
    (by with_unfolding_all decide)

/-- Claim C10: order creation validates none of the request fields — with
the shipping address, billing address and payment method all omitted it
still succeeds on a non-empty sufficiently-stocked cart, persisting NULL
for both address references and the literal string `pending` as the
payment method; its only rejections are the empty cart and insufficient
stock. -/
theorem createOrder_optional_fields (db : DB) (u : Nat)
    (orderNumber : String) (now : Nat) :
    ((cartLines db u ≠ []) →
      (∀ l ∈ cartLines db u, (l.1.quantity : Int) ≤ l.2.stock_quantity) →
      ∃ res, createOrder db u emptyReq orderNumber now = .ok res ∧
        (res.db.orders.getLast?).map (fun o =>
            (o.shipping_address_id, o.billing_address_id, o.payment_method)) =
          some (none, none, "pending")) ∧
    (∀ req e, createOrder db u req orderNumber now = .error e →
      cartLines db u = [] ∨
        ∃ l ∈ cartLines db u, l.2.stock_quantity < (l.1.quantity : Int)) := by
  constructor
  · intro h1 h2
    have h2n : ∀ l ∈ cartLines db u,
        ¬ l.2.stock_quantity < (l.1.quantity : Int) :=
      fun l hl => not_lt.mpr (h2 l hl)
    refine ⟨_,
      createOrder_ok_of_checks db u emptyReq orderNumber now h1 h2n, ?_⟩
    show ((orderWritesDB db u emptyReq orderNumber now).orders.getLast?).map _
      = _
    rw [orderWritesDB_orders, List.getLast?_concat]
    rfl
  · intro req e h
    exact createOrder_error_cases db u req orderNumber now e h

/-- Witness for C10 at the concrete store `dbA`. -/
theorem createOrder_optional_fields_witness :
    (∃ res, createOrder dbA 1 emptyReq "ORD-A" 0 = .ok res ∧
      (res.db.orders.getLast?).map (fun o =>
          (o.shipping_address_id, o.billing_address_id, o.payment_method)) =
        some (none, none, "pending")) ∧
    (cartLines dbE 1 = [] ∨
      ∃ l ∈ cartLines dbE 1, l.2.stock_quantity < (l.1.quantity : Int)) :=
  ⟨(createOrder_optional_fields dbA 1 "ORD-A" 0).1
    (by with_unfolding_all decide) (by with_unfolding_all decide),
   (createOrder_optional_fields dbE 1 "ORD-E" 0).2 emptyReq "Cart is empty"
    (by with_unfolding_all rfl)⟩

/-- Claim C3: on an order owned by the requesting user and in pending
payment state, payment processing records exactly one of the two
outcomes, decided by the random draw: on success (`rand > 0.1`) the
order's payment status becomes `completed` and its lifecycle status
becomes `confirmed`; on failure only the payment status (set to
`failed`) and the row timestamp change, every other field — the
lifecycle status included — keeping its old value; other orders are
untouched in both outcomes. -/
theorem processPayment_pending_outcomes (db : DB) (u oid : Nat)
    (pm : String) (rand : ℚ) (payId : String) (now : Nat)
    (hoid : oid ≠ 0) (hpm : pm ≠ "")
    (hfind : ∃ o0, db.orders.find?
      (fun o => o.id == oid && o.user_id == u &&
        o.payment_status == "pending") = some o0) :
    ∃ r : PaymentResult,
      processPayment db u (some oid) (some pm) rand payId now = .ok r ∧
      (r.success = true ↔ rand > 1 / 10) ∧
      r.db.orders.length = db.orders.length ∧
      (∀ i, i < db.orders.length →
        ∃ o o2, db.orders[i]? = some o ∧ r.db.orders[i]? = some o2 ∧
          (o.id ≠ oid → o2 = o) ∧
          (o.id = oid → r.success = true →
            o2 = { o with
              payment_status := "completed"
              payment_method := pm
              payment_id := some payId
              status := "confirmed"
              updated_at := now }) ∧
          (o.id = oid → r.success = false →
            o2 = { o with payment_status := "failed", updated_at := now })) := by
  obtain ⟨o0, hf⟩ := hfind
  have e1 : (jsFalsyNat (some oid) || jsFalsyStr (some pm)) = false := by
    simp [jsFalsyNat, jsFalsyStr, hoid, hpm]
  by_cases hr : rand > 1 / 10
  · have hr10 : (10 : ℚ)⁻¹ < rand := by rwa [one_div] at hr
    have hcall : processPayment db u (some oid) (some pm) rand payId now =
        .ok { db := { db with orders := db.orders.map (fun o =>
                if o.id == oid then
                  { o with
                    payment_status := "completed"
                    payment_method := pm
                    payment_id := some payId
                    status := "confirmed"
                    updated_at := now }
                else o) }
              success := true
              paymentId := some payId } := by
      simp [processPayment, e1, hf, hr10]
    refine ⟨_, hcall, by simp [hr10], by simp, ?_⟩
    intro i hi
    obtain ⟨o, o2, hg1, hg2, ho2⟩ := mapped_orders_at db.orders _ i hi
    refine ⟨o, o2, hg1, hg2, ?_, ?_, ?_⟩
    · intro hne
      rw [ho2]
      simp [hne]
    · intro heq _
      rw [ho2]
      simp [heq]
    · intro _ hfalse
      exact absurd hfalse (by simp)
  · have hr10 : rand ≤ (10 : ℚ)⁻¹ := by
      rw [← one_div]
      exact not_lt.mp hr
    have hcall : processPayment db u (some oid) (some pm) rand payId now =
        .ok { db := { db with orders := db.orders.map (fun o =>
                if o.id == oid then
                  { o with payment_status := "failed", updated_at := now }
                else o) }
              success := false
              paymentId := none } := by
      simp [processPayment, e1, hf, hr10]
    refine ⟨_, hcall, by simp [not_lt, hr10], by simp, ?_⟩
    intro i hi
    obtain ⟨o, o2, hg1, hg2, ho2⟩ := mapped_orders_at db.orders _ i hi
    refine ⟨o, o2, hg1, hg2, ?_, ?_, ?_⟩
    · intro hne
      rw [ho2]
      simp [hne]
    · intro _ htrue
      exact absurd htrue (by simp)
    · intro heq _
      rw [ho2]
      simp [heq]

/-- Witness for C3 at the concrete store `dbP` (order 1 pending for
user 1) with a succeeding draw. -/
theorem processPayment_pending_outcomes_witness :
    ∃ r : PaymentResult,
      processPayment dbP 1 (some 1) (some "credit_card") (1/2) "pay_1" 5 =
        .ok r ∧
      (r.success = true ↔ (1/2 : ℚ) > 1 / 10) ∧
      r.db.orders.length = dbP.orders.length ∧
      (∀ i, i < dbP.orders.length →
        ∃ o o2, dbP.orders[i]? = some o ∧ r.db.orders[i]? = some o2 ∧
          (o.id ≠ 1 → o2 = o) ∧
          (o.id = 1 → r.success = true →
            o2 = { o with
              payment_status := "completed"
              payment_method := "credit_card"
              payment_id := some "pay_1"
              status := "confirmed"
              updated_at := 5 }) ∧
          (o.id = 1 → r.success = false →
            o2 = { o with payment_status := "failed", updated_at := 5 })) :=
  processPayment_pending_outcomes dbP 1 1 "credit_card" (1/2) "pay_1" 5
    (by decide) (by decide)
    (by with_unfolding_all (exact ⟨_, rfl⟩))

/-- Claim C5: a payment-confirmation request whose order id does not
identify an order that is owned by the requesting user and currently in
pending payment state is rejected with an error; the handler returns
before any `UPDATE`, so no order field is mutated (the rejection carries
no updated store). -/
theorem processPayment_reject_nonpending (db : DB) (u oid : Nat)
    (pm : String) (rand : ℚ) (payId : String) (now : Nat)
    (hoid : oid ≠ 0) (hpm : pm ≠ "")
    (hfind : db.orders.find?
      (fun o => o.id == oid && o.user_id == u &&
        o.payment_status == "pending") = none) :
    processPayment db u (some oid) (some pm) rand payId now =
      .error "Order not found or already processed" := by
  have e1 : (jsFalsyNat (some oid) || jsFalsyStr (some pm)) = false := by
    simp [jsFalsyNat, jsFalsyStr, hoid, hpm]
  simp [processPayment, e1, hfind]

/-- Witness for C5: in `dbP` no order with id 2 exists, so the request is
rejected. -/
theorem processPayment_reject_nonpending_witness :
    processPayment dbP 1 (some 2) (some "credit_card") (1/2) "pay_1" 5 =
      .error "Order not found or already processed" :=
  processPayment_reject_nonpending dbP 1 2 "credit_card" (1/2) "pay_1" 5
    (by decide) (by decide) (by with_unfolding_all rfl)

/-- Claim C9: the admin status update rejects any status outside the six
enumerated values without running its `UPDATE`; for an enumerated status
and an existing order it succeeds, setting exactly that order's status to
the supplied value and leaving every other order unchanged. -/
theorem updateOrderStatus_validation (db : DB) (oid : Nat) (status : String)
    (now : Nat) :
    (validStatuses.contains status = false →
      updateOrderStatus db oid status now = .error "Invalid status") ∧
    (validStatuses.contains status = true →
      (∃ o ∈ db.orders, o.id = oid) →
      ∃ db2, updateOrderStatus db oid status now = .ok db2 ∧
        db2.orders.length = db.orders.length ∧
        ∀ i, i < db.orders.length →
          ∃ o o2, db.orders[i]? = some o ∧ db2.orders[i]? = some o2 ∧
            (o.id = oid → o2.status = status) ∧
            (o.id ≠ oid → o2 = o)) := by
  constructor
  · intro h
    have hmem : status ∉ validStatuses := by simpa using h
    simp [updateOrderStatus, hmem]
  · intro hvalid hex
    have hmem : status ∈ validStatuses := by simpa using hvalid
    have hcall : updateOrderStatus db oid status now =
        .ok { db with orders := db.orders.map (fun o =>
          if o.id == oid then
            { o with
              status := status
              shipped_at := if status == "shipped" then some now else o.shipped_at
              delivered_at :=
                if status == "delivered" then some now else o.delivered_at
              updated_at := now }
          else o) } := by
      simp [updateOrderStatus, hmem, hex]
    refine ⟨_, hcall, by simp, ?_⟩
    intro i hi
    obtain ⟨o, o2, hg1, hg2, ho2⟩ := mapped_orders_at db.orders _ i hi
    refine ⟨o, o2, hg1, hg2, ?_, ?_⟩
    · intro heq
      rw [ho2]
      simp [heq]
    · intro hne
      rw [ho2]
      simp [hne]

/-- Witness for C9 at the concrete store `dbP`: the status `bogus` is
rejected, and the valid status `shipped` is applied to order 1. -/
theorem updateOrderStatus_validation_witness :
    (updateOrderStatus dbP 1 "bogus" 5 = .error "Invalid status") ∧
    (∃ db2, updateOrderStatus dbP 1 "shipped" 5 = .ok db2 ∧
      db2.orders.length = dbP.orders.length ∧
      ∀ i, i < dbP.orders.length →
        ∃ o o2, dbP.orders[i]? = some o ∧ db2.orders[i]? = some o2 ∧
          (o.id = 1 → o2.status = "shipped") ∧
          (o.id ≠ 1 → o2 = o)) :=
  ⟨(updateOrderStatus_validation dbP 1 "bogus" 5).1 (by decide),
   (updateOrderStatus_validation dbP 1 "shipped" 5).2 (by decide)
     (by with_unfolding_all decide)⟩

/-- Claim C6: no operation of the workflow ever rewrites an existing
order's snapshot — after any successful request (order creation, payment
processing, status update, product update, or any cart mutation) every
pre-existing order-item row is still present unchanged (the table only
grows at its end) and every pre-existing order still holds its original
id, order number, subtotal, tax, shipping and total; in particular a
product-price or stock update leaves all snapshots intact. -/
theorem order_snapshot_immutable (db : DB) (op : Op) (db2 : DB)
    (h : applyOp db op = some db2) :
    (∃ tl, db2.order_items = db.order_items ++ tl) ∧
    db.orders.length ≤ db2.orders.length ∧
    (∀ i, i < db.orders.length →
      ∃ o o2, db.orders[i]? = some o ∧ db2.orders[i]? = some o2 ∧
        o2.id = o.id ∧ o2.order_number = o.order_number ∧
        o2.subtotal = o.subtotal ∧ o2.tax_amount = o.tax_amount ∧
        o2.shipping_amount = o.shipping_amount ∧
        o2.total_amount = o.total_amount) := by
  cases op with
  | createOrder u req orderNumber now =>
    simp only [applyOp] at h
    cases hres : createOrder db u req orderNumber now with
    | error e => rw [hres] at h; simp [Except.toOption] at h
    | ok res =>
      rw [hres] at h
      simp [Except.toOption] at h
      have hshape := createOrder_ok_shape db u req orderNumber now res hres
      apply snapshot_goal_of_append db db2
        [{ id := db.nextOrderId
           user_id := u
           order_number := orderNumber
           status := "pending"
           subtotal := orderSubtotal db u
           tax_amount := orderTax db u
           shipping_amount := orderShipping db u
           total_amount := orderTotal db u
           payment_status := "pending"
           payment_method := jsOrStr req.paymentMethod "pending"
           payment_id := none
           shipping_address_id := jsOrNullNat req.shippingAddressId
           billing_address_id := jsOrNullNat req.billingAddressId
           notes := req.notes
           shipped_at := none
           delivered_at := none
           updated_at := now }]
        ((cartLines db u).map (mkOrderItem db.nextOrderId))
      · rw [← h, hshape]
        exact orderWritesDB_orders db u req orderNumber now
      · rw [← h, hshape]
        exact orderWritesDB_order_items db u req orderNumber now
  | processPayment u orderId paymentMethod rand payId now =>
    simp only [applyOp] at h
    cases hfp : (jsFalsyNat orderId || jsFalsyStr paymentMethod) with
    | true => simp [processPayment, Except.toOption, hfp] at h
    | false =>
      cases hfind : db.orders.find?
          (fun o => o.id == orderId.getD 0 && o.user_id == u &&
            o.payment_status == "pending") with
      | none => simp [processPayment, Except.toOption, hfp, hfind] at h
      | some o0 =>
        by_cases hr : (10 : ℚ)⁻¹ < rand
        · simp [processPayment, Except.toOption, hfp, hfind, hr] at h
          refine snapshot_goal_of_map db db2 _ (by rw [← h]) (by rw [← h]) ?_
          intro o
          by_cases ho : o.id = orderId.getD 0 <;> simp [ho]
        · simp [processPayment, Except.toOption, hfp, hfind, hr] at h
          refine snapshot_goal_of_map db db2 _ (by rw [← h]) (by rw [← h]) ?_
          intro o
          by_cases ho : o.id = orderId.getD 0 <;> simp [ho]
  | updateOrderStatus oid status now =>
    simp only [applyOp] at h
    by_cases hv : status ∈ validStatuses
    · by_cases hex : ∃ x ∈ db.orders, x.id = oid
      · simp [updateOrderStatus, Except.toOption, hv, hex] at h
        refine snapshot_goal_of_map db db2 _ (by rw [← h]) (by rw [← h]) ?_
        intro o
        by_cases ho : o.id = oid <;> simp [ho]
      · simp [updateOrderStatus, Except.toOption, hv, hex] at h
    · simp [updateOrderStatus, Except.toOption, hv] at h
  | updateProduct pid name price stockQuantity isActive =>
    simp only [applyOp] at h
    by_cases hex : ∃ x ∈ db.products, x.id = pid
    · simp [updateProduct, Except.toOption, hex] at h
      exact snapshot_goal_of_eq db db2 (by rw [← h]) (by rw [← h])
    · simp [updateProduct, Except.toOption, hex] at h
  | addToCart u productId quantity =>
    simp only [applyOp] at h
    cases hfp : jsFalsyNat productId with
    | true => simp [addToCart, Except.toOption, hfp] at h
    | false =>
      cases hprod : db.products.find?
          (fun p => p.id == productId.getD 0 && p.is_active) with
      | none => simp [addToCart, Except.toOption, hfp, hprod] at h
      | some product =>
        by_cases hstock : product.stock_quantity < (quantity : Int)
        · simp [addToCart, Except.toOption, hfp, hprod, hstock] at h
        · cases hex : db.cart_items.find?
              (fun ci => ci.user_id == u &&
                ci.product_id == productId.getD 0) with
          | some existingItem =>
            by_cases hstock2 : product.stock_quantity <
                (existingItem.quantity : Int) + (quantity : Int)
            · simp [addToCart, Except.toOption, hfp, hprod, hstock, hex, hstock2] at h
            · simp [addToCart, Except.toOption, hfp, hprod, hstock, hex, hstock2] at h
              exact snapshot_goal_of_eq db db2 (by rw [← h]) (by rw [← h])
          | none =>
            simp [addToCart, Except.toOption, hfp, hprod, hstock, hex] at h
            exact snapshot_goal_of_eq db db2 (by rw [← h]) (by rw [← h])
  | updateCartItem u cid quantity =>
    simp only [applyOp] at h
    by_cases hq : quantity < 1
    · simp [updateCartItem, Except.toOption, hq] at h
    · cases hrow : (db.cart_items.find?
          (fun ci => ci.id == cid && ci.user_id == u)).bind
          (fun ci => (db.products.find? (fun p => p.id == ci.product_id)).map
            (fun p => (ci, p))) with
      | none => simp [updateCartItem, Except.toOption, hq, hrow] at h
      | some line =>
        by_cases hstock : line.2.stock_quantity < (quantity : Int)
        · simp [updateCartItem, Except.toOption, hq, hrow, hstock] at h
        · simp [updateCartItem, Except.toOption, hq, hrow, hstock] at h
          exact snapshot_goal_of_eq db db2 (by rw [← h]) (by rw [← h])
  | removeCartItem u cid =>
    simp only [applyOp] at h
    cases hres : removeCartItem db u cid with
    | error e => rw [hres] at h; simp [Except.toOption] at h
    | ok d =>
      rw [hres] at h
      simp [Except.toOption] at h
      unfold removeCartItem at hres
      dsimp only at hres
      split at hres
      · simp at hres
      · cases hres
        exact snapshot_goal_of_eq db db2 (by rw [← h]) (by rw [← h])
  | clearCart u =>
    simp only [applyOp] at h
    simp [clearCart, Except.toOption] at h
    exact snapshot_goal_of_eq db db2 (by rw [← h]; rfl) (by rw [← h]; rfl)

/-- Witness for C6: updating product 1's price and stock in `dbP` leaves
the recorded order item and order 1's totals untouched. -/
theorem order_snapshot_immutable_witness :
    (∃ tl, ((applyOp dbP
        (.updateProduct 1 "Widget" 99 (some 7) (some true))).getD dbP).order_items =
      dbP.order_items ++ tl) ∧
    dbP.orders.length ≤ ((applyOp dbP
        (.updateProduct 1 "Widget" 99 (some 7) (some true))).getD dbP).orders.length ∧
    (∀ i, i < dbP.orders.length →
      ∃ o o2, dbP.orders[i]? = some o ∧
        ((applyOp dbP
          (.updateProduct 1 "Widget" 99 (some 7) (some true))).getD
            dbP).orders[i]? = some o2 ∧
        o2.id = o.id ∧ o2.order_number = o.order_number ∧
        o2.subtotal = o.subtotal ∧ o2.tax_amount = o.tax_amount ∧
        o2.shipping_amount = o.shipping_amount ∧
        o2.total_amount = o.total_amount) :=
  order_snapshot_immutable dbP
    (.updateProduct 1 "Widget" 99 (some 7) (some true))
    ((applyOp dbP (.updateProduct 1 "Widget" 99 (some 7) (some true))).getD dbP)
    (by with_unfolding_all rfl)

end Shop
